import Mathlib

/-
Verification development for the Stripe webhook ingestion service (main.py).

The webhook endpoint `payment_callback` is embedded as a pure function from
an oracle (modelling the external stripe library calls), the configured
secret, the HTTP request and the dedup store, to an ordered trace of the
side effects it performs (DedupRecord insertion, background-task scheduling,
HTTP response).  The background processor `process_event_record` is embedded
with explicit exception propagation in the `Except` monad, so that the
try/except structure of the Python source is visible and "never raises" is a
provable statement.
-/

namespace ClickbuiltWebhook

/-- Python truthiness of an optional string: `None` and the empty string are
falsy, every other string is truthy (as in `if not x:`). -/
def truthy : Option String → Bool
  | none => false
  | some s => !s.isEmpty

/-- Python `a or b` on optional strings: yields `a` when `a` is truthy,
otherwise `b`. -/
def orFalsy (a b : Option String) : Option String :=
  if truthy a then a else b

/-- Python `a or b` on optional integers (`None` and `0` are falsy). -/
def orFalsyInt (a b : Option Int) : Option Int :=
  match a with
  | none => b
  | some n => if n == 0 then b else a

/-- The record persisted by `db.insert` in main.py line 135:
a dict with keys event_id and type. -/
structure DedupRecord where
  event_id : String
  ty : String
deriving Repr, DecidableEq

/-- The TinyDB store, as the list of records inserted so far (append-only). -/
abbrev Store := List DedupRecord

/-- `db.contains(Query().event_id == event_id)` from main.py line 130. -/
def containsStore (st : Store) (eid : String) : Bool :=
  st.any (fun r => r.event_id == eid)

/-- Exceptions the stripe library calls can raise inside `payment_callback`,
as distinguished by the except clauses of main.py. -/
inductive StripeExn where
  | signatureVerificationError
  | typeError
  | unicodeDecodeError
  | otherError
deriving Repr, DecidableEq

/-- The verified event dict returned by `stripe.Webhook.construct_event`:
only `event.get("id")` and `event.get("type")` are read. -/
structure StripeEvent where
  id : Option String
  ty : Option String
deriving Repr, DecidableEq

/-- The external stripe signature-verification primitive, as an oracle:
`constructEventBytes` is `stripe.Webhook.construct_event` on the raw byte
payload, `constructEventText` the same call on the UTF-8 decoded payload,
and `decodeUtf8` is `payload.decode("utf-8")` (`none` models
UnicodeDecodeError). -/
structure StripeOracle where
  constructEventBytes : List Nat → String → String → Except StripeExn StripeEvent
  constructEventText : String → String → String → Except StripeExn StripeEvent
  decodeUtf8 : List Nat → Option String

/-- The inbound HTTP POST: raw body bytes and the stripe-signature header
(`none` when the header is absent). -/
structure WebhookRequest where
  payload : List Nat
  sigHeader : Option String
deriving Repr, DecidableEq

/-- An HTTP outcome of `payment_callback`: a JSONResponse with status and a
boolean-valued body, or a raised HTTPException with status and detail. -/
inductive HandlerResult where
  | jsonOk (status : Nat) (body : List (String × Bool))
  | httpError (status : Nat) (detail : String)
deriving Repr, DecidableEq

/-- A side effect of `payment_callback`, in the order the source performs
them: a `db.insert`, a `background_tasks.add_task(process_event_record, ..)`,
or the HTTP response. -/
inductive Action where
  | insertRec (r : DedupRecord)
  | scheduleTask (event_id event_ty : String)
  | respond (res : HandlerResult)
deriving Repr, DecidableEq

/-- main.py line 132: the duplicate-path response body. -/
def dupResponse : HandlerResult :=
  .jsonOk 200 [("received", true), ("duplicate", true)]

/-- main.py line 140: the first-admission response body (note: the source
returns only the received key here). -/
def admitResponse : HandlerResult :=
  .jsonOk 200 [("received", true)]

/-- main.py lines 129-140: the duplicate check followed by insert, task
scheduling and response.  In the source this block contains no await point,
so it is a single atomic section of the async handler. -/
def dedupAdmit (st : Store) (eid ety : String) : List Action :=
  if containsStore st eid then
    [.respond dupResponse]
  else
    [.insertRec ⟨eid, ety⟩, .scheduleTask eid ety, .respond admitResponse]

/-- main.py lines 123-140: shape validation of the verified event followed
by the dedup/admission block. -/
def handleVerified (st : Store) (ev : StripeEvent) : List Action :=
  if !truthy ev.id || !truthy ev.ty then
    [.respond (.httpError 400 "Malformed event (missing id/type)")]
  else
    dedupAdmit st (ev.id.getD "") (ev.ty.getD "")

/-- The outer except clauses of main.py lines 142-152:
SignatureVerificationError becomes 400 Invalid signature, any other
non-HTTPException exception becomes 500 Webhook processing error. -/
def classifyExn : StripeExn → HandlerResult
  | .signatureVerificationError => .httpError 400 "Invalid signature"
  | _ => .httpError 500 "Webhook processing error"

/-- main.py lines 109-121, the inner try/except TypeError block:
construct_event on the raw bytes; on TypeError, decode the payload as
UTF-8 (a decode failure raises UnicodeDecodeError, which the inner block
does not catch) and retry construct_event on the text. -/
def constructEventWithFallback (o : StripeOracle) (payload : List Nat)
    (sig sec : String) : Except StripeExn StripeEvent :=
  match o.constructEventBytes payload sig sec with
  | .ok ev => .ok ev
  | .error .typeError =>
    match o.decodeUtf8 payload with
    | none => .error .unicodeDecodeError
    | some text => o.constructEventText text sig sec
  | .error e => .error e

/-- main.py lines 92-152, the POST /api/payment/callback handler, as the
ordered trace of side effects it performs on a given request and store.
The secret check precedes the body read; any exception escaping
verification other than SignatureVerificationError (in particular the
UnicodeDecodeError of the UTF-8 fallback) reaches only the generic except
clause, hence 500. -/
def payment_callback (o : StripeOracle) (secret : Option String)
    (req : WebhookRequest) (st : Store) : List Action :=
  if !truthy secret then
    [.respond (.httpError 500 "Webhook secret not configured")]
  else if !truthy req.sigHeader then
    [.respond (.httpError 400 "Missing stripe-signature header")]
  else
    match constructEventWithFallback o req.payload (req.sigHeader.getD "") (secret.getD "") with
    | .ok ev => handleVerified st ev
    | .error e => [.respond (classifyExn e)]

/-- The store resulting from executing a trace of actions. -/
def applyActions (st : Store) (as : List Action) : Store :=
  as.foldl (fun s a => match a with | .insertRec r => s ++ [r] | _ => s) st

/-- The background tasks a trace schedules, in order. -/
def scheduledTasks (as : List Action) : List (String × String) :=
  as.filterMap (fun a => match a with | .scheduleTask e t => some (e, t) | _ => none)

/-- The HTTP response a trace produces (the first respond action). -/
def responseOf (as : List Action) : Option HandlerResult :=
  (as.filterMap (fun a => match a with | .respond r => some r | _ => none)).head?

/-- The HTTP status of an optional handler result. -/
def statusOf : Option HandlerResult → Option Nat
  | none => none
  | some (.jsonOk s _) => some s
  | some (.httpError s _) => some s

/-- Looks up a field of the JSON body of an optional handler result. -/
def bodyField (r : Option HandlerResult) (k : String) : Option Bool :=
  match r with
  | some (.jsonOk _ body) => (body.find? (fun p => p.1 == k)).map Prod.snd
  | _ => none

/-- At most one DedupRecord per distinct event_id exists in the store. -/
def atMostOnePerId (st : Store) : Prop :=
  st.Pairwise (fun a b => a.event_id ≠ b.event_id)

instance (st : Store) : Decidable (atMostOnePerId st) :=
  inferInstanceAs (Decidable (st.Pairwise _))

/-!
Background processor (main.py lines 39-80).
-/

/-- An exception raised by a remote stripe call in the background path. -/
inductive PyExn where
  | remoteError (msg : String)
deriving Repr, DecidableEq

/-- The fields of `ev.get("data", {}).get("object", {})` that the processor
reads.  `customer_details_email` stands for the chained access
`(obj.get("customer_details") or ...).get("email")`. -/
structure EventObject where
  customer_email : Option String
  customer_details_email : Option String
  customer : Option String
  obj_id : Option String
  amount_received : Option Int
  amount : Option Int
  currency : Option String
deriving Repr, DecidableEq

/-- The event returned by `stripe.Event.retrieve`, reduced to the data
object the processor reads from it. -/
structure RetrievedEvent where
  obj : EventObject
deriving Repr, DecidableEq

/-- The customer returned by `stripe.Customer.retrieve`: only
`cust.get("email")` is read. -/
structure CustomerRecord where
  email : Option String
deriving Repr, DecidableEq

/-- The remote stripe API as seen by the background processor:
`eventRetrieve` is `stripe.Event.retrieve`, `customerRetrieve` is
`stripe.Customer.retrieve`; an `Except.error` models a raised exception. -/
structure ProcessorOracle where
  eventRetrieve : String → Except PyExn RetrievedEvent
  customerRetrieve : String → Except PyExn CustomerRecord

/-- One line written to the log sink by the processor. -/
inductive LogEntry where
  | fetchFailed (event_id : String)
  | processing (event_id event_ty : String)
  | checkoutCompleted (email : String) (session : Option String)
  | paymentSucceeded (amount : Option Int) (currency : Option String) (intent : Option String)
  | unhandledType (event_ty : String)
  | handlerCrashed (event_id event_ty : String)
deriving Repr, DecidableEq

/-- main.py lines 39-50, `_extract_email_from_event_object`: direct field,
then nested field, then a Customer lookup; its try/except returns None on
any exception, so the function is total. -/
def extract_email_from_event_object (o : ProcessorOracle) (obj : EventObject) :
    Option String :=
  let email := orFalsy obj.customer_email obj.customer_details_email
  if !truthy email && truthy obj.customer then
    match o.customerRetrieve (obj.customer.getD "") with
    | .ok cust => cust.email
    | .error _ => none
  else
    email

/-- main.py lines 64-78, the body of the inner try block: dispatch on
event_type.  Written in `Except` so that an exception escaping the dispatch
would be visible as an `error`. -/
def handlerDispatch (o : ProcessorOracle) (event_ty : String) (obj : EventObject) :
    Except PyExn (List LogEntry) :=
  if event_ty = "checkout.session.completed" then
    let email := orFalsy (extract_email_from_event_object o obj) (some "unknown")
    .ok [.checkoutCompleted (email.getD "") obj.obj_id]
  else if event_ty = "payment_intent.succeeded" then
    let amount := orFalsyInt obj.amount_received obj.amount
    .ok [.paymentSucceeded amount obj.currency obj.obj_id]
  else
    .ok [.unhandledType event_ty]

/-- main.py lines 53-80, `process_event_record`: fetch the event fresh from
Stripe (fetch failure is logged and the function returns), then dispatch,
with the inner except clause turning any handler exception into a log line.
An uncaught exception would surface as `Except.error`. -/
def process_event_record (o : ProcessorOracle) (event_id event_ty : String) :
    Except PyExn (List LogEntry) :=
  match o.eventRetrieve event_id with
  | .error _ => .ok [.fetchFailed event_id]
  | .ok ev =>
    let obj := ev.obj
    match handlerDispatch o event_ty obj with
    | .ok logs => .ok (.processing event_id event_ty :: logs)
    | .error _ => .ok [.processing event_id event_ty, .handlerCrashed event_id event_ty]

/-!
Concurrency model (spec section 5).  The handler is an `async def` run on a
single cooperative event loop; between `db.contains` (line 130) and
`db.insert` (line 135) the source has no await point, so the whole
`dedupAdmit` block of each request executes as one atomic step, and a
concurrent execution of several verified requests is a sequence of such
steps in an arbitrary order.
-/

/-- Runs a list of already-verified concurrent requests (event_id, type
pairs) against the shared store, one atomic `dedupAdmit` step each, in the
given interleaving order; returns the final store and, per request, whether
it observed itself as a non-duplicate (admission succeeded). -/
def concRun (st : Store) : List (String × String) → Store × List Bool
  | [] => (st, [])
  | r :: rest =>
    let tr := dedupAdmit st r.1 r.2
    let admitted := decide (responseOf tr = some admitResponse)
    let out := concRun (applyActions st tr) rest
    (out.1, admitted :: out.2)

/-!
Concrete oracles used to evaluate the definitions at specific inputs.
-/

/-- A stripe oracle for which verification of any request succeeds and
yields the event with id evt_1 and type checkout.session.completed. -/
def okOracle : StripeOracle where
  constructEventBytes := fun _ _ _ =>
    .ok ⟨some "evt_1", some "checkout.session.completed"⟩
  constructEventText := fun _ _ _ =>
    .ok ⟨some "evt_1", some "checkout.session.completed"⟩
  decodeUtf8 := fun _ => some ""

/-- A stripe oracle whose bytes call raises TypeError (the library wants
text) and for which the payload is not valid UTF-8, so decoding raises. -/
def badUtf8Oracle : StripeOracle where
  constructEventBytes := fun _ _ _ => .error .typeError
  constructEventText := fun _ _ _ => .error .otherError
  decodeUtf8 := fun _ => none

/-- A sample request: a one-byte payload with a signature header present. -/
def sampleReq : WebhookRequest := ⟨[255], some "t=1,v1=sig"⟩

/-- A processor oracle whose remote calls all fail. -/
def failingProcOracle : ProcessorOracle where
  eventRetrieve := fun _ => .error (.remoteError "network")
  customerRetrieve := fun _ => .error (.remoteError "network")

/-!
Helper lemmas (shared; not tied to a single claim).
-/

theorem containsStore_of_mem (st : Store) (r : DedupRecord) (hr : r ∈ st) :
    containsStore st r.event_id = true := by
  refine List.any_eq_true.mpr ⟨r, hr, ?_⟩
  exact beq_self_eq_true _

theorem containsStore_append_self (st : Store) (eid ety : String) :
    containsStore (st ++ [⟨eid, ety⟩]) eid = true := by
  simp [containsStore]

theorem not_contains_forall (st : Store) (eid : String)
    (hc : containsStore st eid = false) : ∀ r ∈ st, r.event_id ≠ eid := by
  intro r hr heq
  have h2 := containsStore_of_mem st r hr
  rw [heq, hc] at h2
  exact Bool.false_ne_true h2

theorem truthy_none : truthy none = false := rfl

theorem applyActions_one_respond (st : Store) (r : HandlerResult) :
    applyActions st [.respond r] = st := rfl

theorem applyActions_admit_trace (st : Store) (rec : DedupRecord)
    (e t : String) (res : HandlerResult) :
    applyActions st [.insertRec rec, .scheduleTask e t, .respond res] = st ++ [rec] := rfl

theorem constructEventWithFallback_ok (o : StripeOracle) (payload : List Nat)
    (sig sec : String) (ev : StripeEvent)
    (h : o.constructEventBytes payload sig sec = .ok ev) :
    constructEventWithFallback o payload sig sec = .ok ev := by
  simp [constructEventWithFallback, h]

theorem payment_callback_of_verified (o : StripeOracle) (secret : Option String)
    (req : WebhookRequest) (st : Store) (ev : StripeEvent)
    (hsec : truthy secret = true) (hsig : truthy req.sigHeader = true)
    (hcf : constructEventWithFallback o req.payload (req.sigHeader.getD "") (secret.getD "") = .ok ev) :
    payment_callback o secret req st = handleVerified st ev := by
  simp [payment_callback, hsec, hsig, hcf]

theorem handleVerified_of_valid (st : Store) (ev : StripeEvent)
    (hidT : truthy ev.id = true) (htyT : truthy ev.ty = true) :
    handleVerified st ev = dedupAdmit st (ev.id.getD "") (ev.ty.getD "") := by
  simp [handleVerified, hidT, htyT]

theorem classifyExn_err (e : StripeExn) :
    ∃ s d, classifyExn e = .httpError s d := by
  cases e
  · exact ⟨400, "Invalid signature", rfl⟩
  · exact ⟨500, "Webhook processing error", rfl⟩
  · exact ⟨500, "Webhook processing error", rfl⟩
  · exact ⟨500, "Webhook processing error", rfl⟩

theorem handleVerified_shape (st : Store) (ev : StripeEvent) :
    (∃ s d, handleVerified st ev = [.respond (.httpError s d)]) ∨
    handleVerified st ev = [.respond dupResponse] ∨
    (∃ eid ety, containsStore st eid = false ∧
      handleVerified st ev =
        [.insertRec ⟨eid, ety⟩, .scheduleTask eid ety, .respond admitResponse]) := by
  cases hid : (!truthy ev.id || !truthy ev.ty) with
  | true =>
    exact .inl ⟨400, "Malformed event (missing id/type)", by simp [handleVerified, hid]⟩
  | false =>
    cases hc : containsStore st (ev.id.getD "") with
    | true =>
      exact .inr (.inl (by simp [handleVerified, hid, dedupAdmit, hc]))
    | false =>
      exact .inr (.inr ⟨ev.id.getD "", ev.ty.getD "", hc,
        by simp [handleVerified, hid, dedupAdmit, hc]⟩)

theorem payment_callback_shape (o : StripeOracle) (secret : Option String)
    (req : WebhookRequest) (st : Store) :
    (∃ s d, payment_callback o secret req st = [.respond (.httpError s d)]) ∨
    payment_callback o secret req st = [.respond dupResponse] ∨
    (∃ eid ety, containsStore st eid = false ∧
      payment_callback o secret req st =
        [.insertRec ⟨eid, ety⟩, .scheduleTask eid ety, .respond admitResponse]) := by
  cases hts : truthy secret with
  | false =>
    exact .inl ⟨500, "Webhook secret not configured", by simp [payment_callback, hts]⟩
  | true =>
    cases hth : truthy req.sigHeader with
    | false =>
      exact .inl ⟨400, "Missing stripe-signature header", by simp [payment_callback, hts, hth]⟩
    | true =>
      cases hcf : constructEventWithFallback o req.payload (req.sigHeader.getD "") (secret.getD "") with
      | error e =>
        obtain ⟨s, d, hd⟩ := classifyExn_err e
        exact .inl ⟨s, d, by simp [payment_callback, hts, hth, hcf, hd]⟩
      | ok ev =>
        rw [payment_callback_of_verified o secret req st ev hts hth hcf]
        exact handleVerified_shape st ev

theorem payment_callback_preserves_atMostOne (o : StripeOracle)
    (secret : Option String) (req : WebhookRequest) (st : Store)
    (h : atMostOnePerId st) :
    atMostOnePerId (applyActions st (payment_callback o secret req st)) := by
  rcases payment_callback_shape o secret req st with ⟨s, d, heq⟩ | heq | ⟨eid, ety, hc, heq⟩
  · rw [heq, applyActions_one_respond]; exact h
  · rw [heq, applyActions_one_respond]; exact h
  · rw [heq, applyActions_admit_trace]
    refine List.pairwise_append.mpr ⟨h, List.pairwise_singleton _ _, ?_⟩
    intro a ha b hb
    have hb2 : b = ⟨eid, ety⟩ := by simpa using hb
    rw [hb2]
    exact not_contains_forall st eid hc a ha

theorem concRun_results_length (reqs : List (String × String)) :
    ∀ st : Store, (concRun st reqs).2.length = reqs.length := by
  induction reqs with
  | nil => intro st; rfl
  | cons r rest ih =>
    intro st
    have hstep : (concRun st (r :: rest)).2 =
        decide (responseOf (dedupAdmit st r.1 r.2) = some admitResponse) ::
          (concRun (applyActions st (dedupAdmit st r.1 r.2)) rest).2 := rfl
    rw [hstep]
    simp [ih]

theorem concRun_no_admission (eid : String) (reqs : List (String × String)) :
    ∀ st : Store, (∀ r ∈ reqs, r.1 = eid) → containsStore st eid = true →
      (concRun st reqs).2.count true = 0 := by
  induction reqs with
  | nil => intro st _ _; rfl
  | cons r rest ih =>
    intro st hall hdup
    have hr1 : r.1 = eid := hall r (List.mem_cons_self r rest)
    have hcd : containsStore st r.1 = true := by rw [hr1]; exact hdup
    have htr : dedupAdmit st r.1 r.2 = [.respond dupResponse] := by
      simp [dedupAdmit, hcd]
    have happ : applyActions st (dedupAdmit st r.1 r.2) = st := by
      rw [htr, applyActions_one_respond]
    have hadm : decide (responseOf (dedupAdmit st r.1 r.2) = some admitResponse) = false := by
      rw [htr]; decide
    have hstep : (concRun st (r :: rest)).2 =
        decide (responseOf (dedupAdmit st r.1 r.2) = some admitResponse) ::
          (concRun (applyActions st (dedupAdmit st r.1 r.2)) rest).2 := rfl
    rw [hstep, hadm, happ]
    have h0 := ih st (fun x hx => hall x (List.mem_cons_of_mem r hx)) hdup
    simpa [List.count_cons] using h0

/-!
Claim theorems.
-/

/-- Claim C1: once an event_id has been admitted (the store contains it),
every later validly signed POST with the same event_id returns 200 with
duplicate set to true, inserts nothing, schedules no background task, and
every request preserves the invariant of at most one DedupRecord per
distinct event_id. -/
theorem duplicate_admission_is_noop
    (o : StripeOracle) (secret : Option String) (req : WebhookRequest)
    (st : Store) (ev : StripeEvent) (eid : String)
    (hsec : truthy secret = true)
    (hsig : truthy req.sigHeader = true)
    (hver : o.constructEventBytes req.payload (req.sigHeader.getD "") (secret.getD "") = .ok ev)
    (hid : ev.id = some eid)
    (hidT : truthy ev.id = true)
    (htyT : truthy ev.ty = true)
    (hdup : containsStore st eid = true) :
    payment_callback o secret req st = [.respond dupResponse] ∧
    responseOf (payment_callback o secret req st) =
      some (.jsonOk 200 [("received", true), ("duplicate", true)]) ∧
    applyActions st (payment_callback o secret req st) = st ∧
    scheduledTasks (payment_callback o secret req st) = [] ∧
    (∀ (o2 : StripeOracle) (sec2 : Option String) (req2 : WebhookRequest) (st2 : Store),
      atMostOnePerId st2 →
        atMostOnePerId (applyActions st2 (payment_callback o2 sec2 req2 st2))) := by
  have h1 : payment_callback o secret req st = [.respond dupResponse] := by
    rw [payment_callback_of_verified o secret req st ev hsec hsig
        (constructEventWithFallback_ok o req.payload _ _ ev hver),
      handleVerified_of_valid st ev hidT htyT, hid]
    simp [dedupAdmit, hdup]
  refine ⟨h1, ?_, ?_, ?_, ?_⟩
  · rw [h1]; rfl
  · rw [h1, applyActions_one_respond]
  · rw [h1]; rfl
  · intro o2 sec2 req2 st2 h2
    exact payment_callback_preserves_atMostOne o2 sec2 req2 st2 h2

/-- Claim C2 counterexample: on the first admission of an event the source
(main.py line 140) responds 200 with a body holding only the received key;
the body is not the claimed pair of received and duplicate fields, and a
duplicate field is absent. -/
theorem first_admission_body_counterexample :
    responseOf (payment_callback okOracle (some "whsec_test") sampleReq []) =
      some (.jsonOk 200 [("received", true)]) ∧
    responseOf (payment_callback okOracle (some "whsec_test") sampleReq []) ≠
      some (.jsonOk 200 [("received", true), ("duplicate", false)]) ∧
    bodyField (responseOf (payment_callback okOracle (some "whsec_test") sampleReq [])) "duplicate" =
      none := by
  refine ⟨rfl, ?_, rfl⟩
  decide

/-- Claim C2 as amended: on first admission of a validly signed event the
200 response body holds received set to true and no duplicate field at
all (only the duplicate path carries a duplicate field). -/
theorem first_admission_body_no_duplicate_field
    (o : StripeOracle) (secret : Option String) (req : WebhookRequest)
    (st : Store) (ev : StripeEvent) (eid ety : String)
    (hsec : truthy secret = true)
    (hsig : truthy req.sigHeader = true)
    (hver : o.constructEventBytes req.payload (req.sigHeader.getD "") (secret.getD "") = .ok ev)
    (hid : ev.id = some eid) (hty : ev.ty = some ety)
    (hidT : truthy ev.id = true) (htyT : truthy ev.ty = true)
    (hnew : containsStore st eid = false) :
    responseOf (payment_callback o secret req st) =
      some (.jsonOk 200 [("received", true)]) ∧
    bodyField (responseOf (payment_callback o secret req st)) "received" = some true ∧
    bodyField (responseOf (payment_callback o secret req st)) "duplicate" = none := by
  have h1 : payment_callback o secret req st =
      [.insertRec ⟨eid, ety⟩, .scheduleTask eid ety, .respond admitResponse] := by
    rw [payment_callback_of_verified o secret req st ev hsec hsig
        (constructEventWithFallback_ok o req.payload _ _ ev hver),
      handleVerified_of_valid st ev hidT htyT, hid, hty]
    simp [dedupAdmit, hnew]
  refine ⟨?_, ?_, ?_⟩ <;> rw [h1] <;> rfl

/-- Claim C3: on a non-duplicate admission the trace of effects is, in
execution order, the DedupRecord insert, then the background task, then the
200 response — so the insert is committed before the task is scheduled and
both precede the response. -/
theorem admission_orders_insert_task_response
    (o : StripeOracle) (secret : Option String) (req : WebhookRequest)
    (st : Store) (ev : StripeEvent) (eid ety : String)
    (hsec : truthy secret = true)
    (hsig : truthy req.sigHeader = true)
    (hver : o.constructEventBytes req.payload (req.sigHeader.getD "") (secret.getD "") = .ok ev)
    (hid : ev.id = some eid) (hty : ev.ty = some ety)
    (hidT : truthy ev.id = true) (htyT : truthy ev.ty = true)
    (hnew : containsStore st eid = false) :
    payment_callback o secret req st =
      [.insertRec ⟨eid, ety⟩, .scheduleTask eid ety, .respond admitResponse] ∧
    applyActions st (payment_callback o secret req st) = st ++ [⟨eid, ety⟩] ∧
    scheduledTasks (payment_callback o secret req st) = [(eid, ety)] ∧
    responseOf (payment_callback o secret req st) = some admitResponse := by
  have h1 : payment_callback o secret req st =
      [.insertRec ⟨eid, ety⟩, .scheduleTask eid ety, .respond admitResponse] := by
    rw [payment_callback_of_verified o secret req st ev hsec hsig
        (constructEventWithFallback_ok o req.payload _ _ ev hver),
      handleVerified_of_valid st ev hidT htyT, hid, hty]
    simp [dedupAdmit, hnew]
  exact ⟨h1, by rw [h1, applyActions_admit_trace], by rw [h1]; rfl, by rw [h1]; rfl⟩

/-- Claim C4 counterexample: with the secret configured and a signature
header present, when the bytes call to construct_event raises TypeError and
the payload is not valid UTF-8, the handler answers 500 Webhook processing
error (the UnicodeDecodeError reaches only the generic except clause), not
the 400 the claim states. -/
theorem undecodable_payload_counterexample :
    statusOf (responseOf (payment_callback badUtf8Oracle (some "whsec_test") sampleReq [])) =
      some 500 ∧
    statusOf (responseOf (payment_callback badUtf8Oracle (some "whsec_test") sampleReq [])) ≠
      some 400 ∧
    responseOf (payment_callback badUtf8Oracle (some "whsec_test") sampleReq []) =
      some (.httpError 500 "Webhook processing error") := by
  refine ⟨rfl, ?_, rfl⟩
  decide

/-- Claim C4 as amended: when the signature primitive requires text
(TypeError on the bytes call) and the payload bytes are not valid UTF-8,
the request fails with 500 Webhook processing error and the store is
unchanged. -/
theorem undecodable_payload_returns_500
    (o : StripeOracle) (secret : Option String) (req : WebhookRequest) (st : Store)
    (hsec : truthy secret = true)
    (hsig : truthy req.sigHeader = true)
    (htype : o.constructEventBytes req.payload (req.sigHeader.getD "") (secret.getD "") = .error .typeError)
    (hdec : o.decodeUtf8 req.payload = none) :
    payment_callback o secret req st = [.respond (.httpError 500 "Webhook processing error")] ∧
    applyActions st (payment_callback o secret req st) = st := by
  have hcf : constructEventWithFallback o req.payload (req.sigHeader.getD "") (secret.getD "") =
      .error .unicodeDecodeError := by
    simp [constructEventWithFallback, htype, hdec]
  have h1 : payment_callback o secret req st =
      [.respond (.httpError 500 "Webhook processing error")] := by
    simp [payment_callback, hsec, hsig, hcf, classifyExn]
  exact ⟨h1, by rw [h1, applyActions_one_respond]⟩

/-- Claim C5: with no webhook secret configured, every POST answers 500
with detail Webhook secret not configured; the store is untouched and the
outcome does not depend on the request (body and headers are never
inspected). -/
theorem missing_secret_rejects_without_reading_body
    (o : StripeOracle) (req : WebhookRequest) (st : Store) :
    payment_callback o none req st =
      [.respond (.httpError 500 "Webhook secret not configured")] ∧
    applyActions st (payment_callback o none req st) = st ∧
    scheduledTasks (payment_callback o none req st) = [] ∧
    (∀ req2 : WebhookRequest, payment_callback o none req2 st = payment_callback o none req st) :=
  ⟨rfl, rfl, rfl, fun _ => rfl⟩

/-- Claim C6: with the secret configured but no stripe-signature header,
the handler answers 400 Missing stripe-signature header and performs no
insert, leaving the store unchanged. -/
theorem missing_signature_header_rejected
    (o : StripeOracle) (secret : Option String) (req : WebhookRequest) (st : Store)
    (hsec : truthy secret = true) (hhdr : req.sigHeader = none) :
    payment_callback o secret req st =
      [.respond (.httpError 400 "Missing stripe-signature header")] ∧
    applyActions st (payment_callback o secret req st) = st ∧
    (∀ r : DedupRecord, Action.insertRec r ∉ payment_callback o secret req st) := by
  have h1 : payment_callback o secret req st =
      [.respond (.httpError 400 "Missing stripe-signature header")] := by
    simp [payment_callback, hsec, hhdr, truthy_none]
  refine ⟨h1, by rw [h1, applyActions_one_respond], ?_⟩
  intro r
  rw [h1]
  simp

/-- Claim C7: process_event_record never lets an exception escape, for any
behaviour of the remote calls: a fetch failure is logged and the function
returns, an unrecognized event type is logged as unhandled with no further
action, and every outcome is a normal return. -/
theorem process_event_record_never_raises
    (o : ProcessorOracle) (event_id event_ty : String) :
    (∃ logs, process_event_record o event_id event_ty = .ok logs) ∧
    (∀ e, o.eventRetrieve event_id = .error e →
      process_event_record o event_id event_ty = .ok [.fetchFailed event_id]) ∧
    (∀ ev, o.eventRetrieve event_id = .ok ev →
      event_ty ≠ "checkout.session.completed" →
      event_ty ≠ "payment_intent.succeeded" →
      process_event_record o event_id event_ty =
        .ok [.processing event_id event_ty, .unhandledType event_ty]) := by
  refine ⟨?_, ?_, ?_⟩
  · cases hev : o.eventRetrieve event_id with
    | error e =>
      exact ⟨[.fetchFailed event_id], by simp [process_event_record, hev]⟩
    | ok ev =>
      cases hd : handlerDispatch o event_ty ev.obj with
      | ok logs =>
        exact ⟨.processing event_id event_ty :: logs,
          by simp [process_event_record, hev, hd]⟩
      | error e =>
        exact ⟨[.processing event_id event_ty, .handlerCrashed event_id event_ty],
          by simp [process_event_record, hev, hd]⟩
  · intro e he
    simp [process_event_record, he]
  · intro ev hev h1 h2
    have hd : handlerDispatch o event_ty ev.obj = .ok [.unhandledType event_ty] := by
      unfold handlerDispatch
      rw [if_neg h1, if_neg h2]
    simp [process_event_record, hev, hd]

/-- Claim C8: under the single-event-loop cooperative scheduler the
contains-then-insert section (main.py lines 130-135) holds no await point
and runs as one atomic step, so any interleaving of N concurrent verified
requests bearing the same event_id against a store not yet holding it is a
sequence of such steps, and exactly one of the N requests observes itself
as non-duplicate. -/
theorem concurrent_same_id_single_admission
    (st : Store) (eid : String) (reqs : List (String × String))
    (hall : ∀ r ∈ reqs, r.1 = eid)
    (hfresh : containsStore st eid = false)
    (hne : reqs ≠ []) :
    (concRun st reqs).2.count true = 1 ∧
    (concRun st reqs).2.length = reqs.length := by
  refine ⟨?_, concRun_results_length reqs st⟩
  cases reqs with
  | nil => exact absurd rfl hne
  | cons r rest =>
    have hr1 : r.1 = eid := hall r (List.mem_cons_self r rest)
    have hcf : containsStore st r.1 = false := by rw [hr1]; exact hfresh
    have htr : dedupAdmit st r.1 r.2 =
        [.insertRec ⟨r.1, r.2⟩, .scheduleTask r.1 r.2, .respond admitResponse] := by
      simp [dedupAdmit, hcf]
    have happ : applyActions st (dedupAdmit st r.1 r.2) = st ++ [⟨r.1, r.2⟩] := by
      rw [htr, applyActions_admit_trace]
    have hadm : decide (responseOf (dedupAdmit st r.1 r.2) = some admitResponse) = true := by
      rw [htr]; rfl
    have hc2 : containsStore (st ++ [⟨r.1, r.2⟩]) eid = true := by
      rw [hr1]; exact containsStore_append_self st eid r.2
    have hstep : (concRun st (r :: rest)).2 =
        decide (responseOf (dedupAdmit st r.1 r.2) = some admitResponse) ::
          (concRun (applyActions st (dedupAdmit st r.1 r.2)) rest).2 := rfl
    rw [hstep, hadm, happ]
    have h0 := concRun_no_admission eid rest (st ++ [⟨r.1, r.2⟩])
      (fun x hx => hall x (List.mem_cons_of_mem r hx)) hc2
    simp [List.count_cons, h0]

/-- Claim C9: duplicate detection keys on event_id alone — a validly signed
event whose id is already stored under a different type is still a
duplicate: 200 with duplicate true, no insert, no task, and the stored
record with its original type is still in the resulting store. -/
theorem dedup_keys_on_event_id_only
    (o : StripeOracle) (secret : Option String) (req : WebhookRequest)
    (st : Store) (ev : StripeEvent) (eid ty2 : String) (r : DedupRecord)
    (hsec : truthy secret = true)
    (hsig : truthy req.sigHeader = true)
    (hver : o.constructEventBytes req.payload (req.sigHeader.getD "") (secret.getD "") = .ok ev)
    (hid : ev.id = some eid) (hty : ev.ty = some ty2)
    (hidT : truthy ev.id = true) (htyT : truthy ev.ty = true)
    (hr : r ∈ st) (hre : r.event_id = eid) (hne : r.ty ≠ ty2) :
    payment_callback o secret req st = [.respond dupResponse] ∧
    applyActions st (payment_callback o secret req st) = st ∧
    scheduledTasks (payment_callback o secret req st) = [] ∧
    r ∈ applyActions st (payment_callback o secret req st) := by
  have hdup : containsStore st eid = true := by
    rw [← hre]; exact containsStore_of_mem st r hr
  have h1 : payment_callback o secret req st = [.respond dupResponse] := by
    rw [payment_callback_of_verified o secret req st ev hsec hsig
        (constructEventWithFallback_ok o req.payload _ _ ev hver),
      handleVerified_of_valid st ev hidT htyT, hid]
    simp [dedupAdmit, hdup]
  refine ⟨h1, ?_, ?_, ?_⟩
  · rw [h1, applyActions_one_respond]
  · rw [h1]; rfl
  · rw [h1, applyActions_one_respond]; exact hr

/-- Claim C10: any request answered with an HTTP error status leaves the
store unchanged — no insert action appears in its trace and no task is
scheduled; the single insert lies only on the non-duplicate success path. -/
theorem error_response_leaves_store_unchanged
    (o : StripeOracle) (secret : Option String) (req : WebhookRequest)
    (st : Store) (s : Nat) (d : String)
    (herr : responseOf (payment_callback o secret req st) = some (.httpError s d)) :
    applyActions st (payment_callback o secret req st) = st ∧
    (∀ r : DedupRecord, Action.insertRec r ∉ payment_callback o secret req st) ∧
    scheduledTasks (payment_callback o secret req st) = [] := by
  rcases payment_callback_shape o secret req st with ⟨s2, d2, heq⟩ | heq | ⟨eid, ety, hc, heq⟩
  · rw [heq]
    exact ⟨applyActions_one_respond st _, fun r => by simp, rfl⟩
  · rw [heq] at herr
    simp [responseOf, dupResponse] at herr
  · rw [heq] at herr
    simp [responseOf, admitResponse] at herr

/-!
Witnesses: each claim theorem with hypotheses, applied at concrete inputs.
-/

/-- Witness for the C1 theorem at concrete inputs. -/
theorem duplicate_admission_is_noop_witness :
    payment_callback okOracle (some "whsec_test") sampleReq
      [⟨"evt_1", "checkout.session.completed"⟩] = [.respond dupResponse] :=
  (duplicate_admission_is_noop okOracle (some "whsec_test") sampleReq
    [⟨"evt_1", "checkout.session.completed"⟩]
    ⟨some "evt_1", some "checkout.session.completed"⟩ "evt_1"
    (by decide) (by decide) rfl rfl (by decide) (by decide) (by decide)).1

/-- Witness for the amended C2 theorem at concrete inputs. -/
theorem first_admission_body_no_duplicate_field_witness :
    bodyField (responseOf (payment_callback okOracle (some "whsec_test") sampleReq
      [⟨"evt_0", "x"⟩])) "duplicate" = none :=
  (first_admission_body_no_duplicate_field okOracle (some "whsec_test") sampleReq
    [⟨"evt_0", "x"⟩] ⟨some "evt_1", some "checkout.session.completed"⟩
    "evt_1" "checkout.session.completed"
    (by decide) (by decide) rfl rfl rfl (by decide) (by decide) (by decide)).2.2

/-- Witness for the C3 theorem at concrete inputs. -/
theorem admission_orders_insert_task_response_witness :
    payment_callback okOracle (some "whsec_test") sampleReq [] =
      [.insertRec ⟨"evt_1", "checkout.session.completed"⟩,
       .scheduleTask "evt_1" "checkout.session.completed", .respond admitResponse] :=
  (admission_orders_insert_task_response okOracle (some "whsec_test") sampleReq []
    ⟨some "evt_1", some "checkout.session.completed"⟩ "evt_1" "checkout.session.completed"
    (by decide) (by decide) rfl rfl rfl (by decide) (by decide) (by decide)).1

/-- Witness for the amended C4 theorem at concrete inputs. -/
theorem undecodable_payload_returns_500_witness :
    payment_callback badUtf8Oracle (some "whsec_test") sampleReq [] =
      [.respond (.httpError 500 "Webhook processing error")] :=
  (undecodable_payload_returns_500 badUtf8Oracle (some "whsec_test") sampleReq []
    (by decide) (by decide) rfl rfl).1

/-- Witness for the C6 theorem at concrete inputs. -/
theorem missing_signature_header_rejected_witness :
    payment_callback okOracle (some "whsec_test") ⟨[255], none⟩ [] =
      [.respond (.httpError 400 "Missing stripe-signature header")] :=
  (missing_signature_header_rejected okOracle (some "whsec_test") ⟨[255], none⟩ []
    (by decide) rfl).1

/-- Witness for the C7 theorem at concrete inputs. -/
theorem process_event_record_never_raises_witness :
    process_event_record failingProcOracle "evt_9" "some.future.event" =
      .ok [.fetchFailed "evt_9"] :=
  (process_event_record_never_raises failingProcOracle "evt_9" "some.future.event").2.1
    (.remoteError "network") rfl

/-- Witness for the C8 theorem at concrete inputs: three concurrent
requests for the same event, exactly one admission. -/
theorem concurrent_same_id_single_admission_witness :
    (concRun [] [("evt_1", "a"), ("evt_1", "b"), ("evt_1", "c")]).2.count true = 1 :=
  (concurrent_same_id_single_admission [] "evt_1"
    [("evt_1", "a"), ("evt_1", "b"), ("evt_1", "c")]
    (by decide) (by decide) (by decide)).1

/-- Witness for the C9 theorem at concrete inputs: same id, different
stored type, still a duplicate. -/
theorem dedup_keys_on_event_id_only_witness :
    payment_callback okOracle (some "whsec_test") sampleReq [⟨"evt_1", "old.type"⟩] =
      [.respond dupResponse] :=
  (dedup_keys_on_event_id_only okOracle (some "whsec_test") sampleReq
    [⟨"evt_1", "old.type"⟩] ⟨some "evt_1", some "checkout.session.completed"⟩
    "evt_1" "checkout.session.completed" ⟨"evt_1", "old.type"⟩
    (by decide) (by decide) rfl rfl rfl (by decide) (by decide)
    (by decide) rfl (by decide)).1

/-- Witness for the C10 theorem at concrete inputs: a 500 from the missing
secret leaves the empty store empty. -/
theorem error_response_leaves_store_unchanged_witness :
    applyActions [] (payment_callback okOracle none sampleReq []) = [] :=
  (error_response_leaves_store_unchanged okOracle none sampleReq [] 500
    "Webhook secret not configured" rfl).1

end ClickbuiltWebhook
